import Mathlib

/-!
Verification development for the supervisor excerpt:
  * `src/supervisor/dbus/payloads/generate.py`
      (`get_connection_from_interface`, `interface_update_payload`)
  * `src/supervisor/homeassistant/module.py`
      (`HomeAssistant.backup`, `HomeAssistant.restore`,
       `HomeAssistant._hardware_events`)

The Python code is shallowly embedded: dictionaries become association
lists preserving insertion/update semantics, D-Bus `Variant` values become
an inductive type carrying the signature where the source spells one out,
exceptions become `Except`/sum results, and the awaited side effects of the
coordinators become explicit event traces.
-/

set_option autoImplicit false

namespace Supervisor

/-! ## D-Bus variant values (`dbus_next.signature.Variant`)

Each constructor records one of the signatures actually used by
`generate.py`.  `vdict` is the array-of-string-keyed-dictionaries shape; its
`String` field keeps the literal signature text written in the source
(`"aa{sv}"` in the ipv4 branch, `"(a{sv})"` in the ipv6 branch), so the
source's inconsistency stays observable. -/

/-- The variants the source ever places inside an address-data
sub-document: only `Variant("s", _)` and `Variant("u", _)` occur there. -/
inductive NMPrim where
  | s : String → NMPrim
  | u : Nat → NMPrim
deriving DecidableEq

/-- One `{address, prefix}` sub-document, as an insertion-ordered dict. -/
abbrev AddrDict := List (String × NMPrim)

inductive NMValue where
  /-- `Variant("s", _)` -/
  | vs : String → NMValue
  /-- `Variant("i", _)` (32-bit signed) -/
  | vi : Int → NMValue
  /-- `Variant("u", _)` (32-bit unsigned) -/
  | vu : Nat → NMValue
  /-- `Variant("au", _)` -/
  | vau : List Nat → NMValue
  /-- `Variant("aay", _)` -/
  | vaay : List (List Nat) → NMValue
  /-- `Variant("ay", _)` -/
  | vay : List Nat → NMValue
  /-- array of `{string: variant}` dictionaries, first field is the literal
      signature text used at the call site -/
  | vdict : String → List AddrDict → NMValue
deriving DecidableEq

/-- One profile section: a Python `dict` as an insertion-ordered list. -/
abbrev NMDict := List (String × NMValue)

/-- The whole connection document `conn`. -/
abbrev Profile := List (String × NMDict)

/-- Python `str.startswith`, as a structural prefix test on the character
sequences (Lean's own `String.startsWith` does not reduce definitionally). -/
def strStartsWith (s pre : String) : Bool :=
  pre.data.isPrefixOf s.data

/-- Split a character list at a separator character. -/
def splitOnChar (c : Char) : List Char → List (List Char)
  | [] => [[]]
  | x :: xs =>
      match splitOnChar c xs with
      | [] => [[]]
      | g :: gs => if x = c then [] :: g :: gs else (x :: g) :: gs

/-- Python `s.split("/")`. -/
def splitSlash (s : String) : List String :=
  (splitOnChar '/' s.data).map String.mk

/-- Python `d[k] = v` on a dict: replace in place if the key exists
(keeping its position), otherwise append. -/
def dictSet (d : NMDict) (k : String) (v : NMValue) : NMDict :=
  if d.any (fun p => p.1 == k) then
    d.map (fun p => if p.1 == k then (k, v) else p)
  else
    d ++ [(k, v)]

/-! ## Address model (`ipaddress.IPv4Address` / `IPv6Address`)

IPv4 addresses are four octets; IPv6 addresses are eight 16-bit hextets.
The source manipulates their *canonical string forms* (`str(address.ip)`,
`address.with_prefixlen`), so the embedding implements the compression
algorithm of CPython's `ipaddress._string_from_ip_int`: hextets in lowercase
hex without leading zeros, with the leftmost longest run of two or more zero
hextets replaced by `::`. -/

structure IPv4Addr where
  octets : List Nat
deriving DecidableEq

/-- `str(ip)` for IPv4: dotted decimal. -/
def IPv4Addr.str (a : IPv4Addr) : String :=
  String.intercalate "." (a.octets.map toString)

/-- `int(ip)` for IPv4: big-endian 32-bit integer value. -/
def IPv4Addr.toInt (a : IPv4Addr) : Nat :=
  a.octets.foldl (fun acc o => acc * 256 + o) 0

/-- `socket.htonl` on the (little-endian) host platforms the supervisor
targets: byte-swap of a 32-bit value. -/
def htonl (n : Nat) : Nat :=
  (n % 256) * 16777216 + (n / 256 % 256) * 65536 +
    (n / 65536 % 256) * 256 + (n / 16777216 % 256)

/-- `IPv4Interface`: an address plus its prefix length.  The source reads the
prefix back out of `with_prefixlen.split("/")[-1]`; the split of
`str ++ "/" ++ toString prefixLen` on `/` returns `toString prefixLen` as the
last piece, so the embedding uses the `prefixLen` field directly. -/
structure IPv4Interface where
  ip : IPv4Addr
  prefixLen : Nat
deriving DecidableEq

/-- Lowercase hex of one hextet without leading zeros (`'%x' % w`). -/
def hexStr (n : Nat) : String := String.mk (Nat.toDigits 16 n)

/-- State of CPython's `_compress_hextets` scan: the best zero run seen so
far and the zero run currently open. -/
structure RunState where
  bestStart : Nat
  bestLen : Nat
  curStart : Nat
  curLen : Nat
deriving DecidableEq

/-- One step of the `_compress_hextets` loop over `(index, hextet)`. -/
def runStep (s : RunState) (p : Nat × Nat) : RunState :=
  if p.2 = 0 then
    let curStart := if s.curLen = 0 then p.1 else s.curStart
    let curLen := s.curLen + 1
    if s.bestLen < curLen then
      ⟨curStart, curLen, curStart, curLen⟩
    else
      { s with curStart := curStart, curLen := curLen }
  else
    { s with curStart := 0, curLen := 0 }

/-- Leftmost longest run of zero hextets, as `(start, length)`. -/
def bestZeroRun (ws : List Nat) : Nat × Nat :=
  let s := ws.enum.foldl runStep ⟨0, 0, 0, 0⟩
  (s.bestStart, s.bestLen)

/-- Canonical compressed IPv6 text of a hextet list, as CPython prints it:
compression only when the best zero run has length at least two; an empty
group at either end yields the leading/trailing `::`. -/
def ipv6Compress (ws : List Nat) : String :=
  let best := bestZeroRun ws
  if 1 < best.2 then
    let pre := (ws.take best.1).map hexStr
    let post := (ws.drop (best.1 + best.2)).map hexStr
    let parts :=
      (if pre.isEmpty then [""] else pre) ++ [""] ++
        (if post.isEmpty then [""] else post)
    String.intercalate ":" parts
  else
    String.intercalate ":" (ws.map hexStr)

structure IPv6Addr where
  words : List Nat
deriving DecidableEq

/-- `str(ip)` for IPv6. -/
def IPv6Addr.str (a : IPv6Addr) : String := ipv6Compress a.words

/-- `ip.packed`: the 16 network-order bytes. -/
def IPv6Addr.packed (a : IPv6Addr) : List Nat :=
  a.words.flatMap (fun w => [w / 256 % 256, w % 256])

/-- `IPv6Interface`: an address plus its prefix length (see
`IPv4Interface` for the `split("/")` remark). -/
structure IPv6Interface where
  ip : IPv6Addr
  prefixLen : Nat
deriving DecidableEq

/-- `address.with_prefixlen` for IPv6. -/
def IPv6Interface.withPrefixlen (a : IPv6Interface) : String :=
  a.ip.str ++ "/" ++ toString a.prefixLen

/-- Membership in the IPv6 link-local range `fe80::/10`: the first ten bits
of the leading hextet are `1111111010`. -/
def inFe80Slash10 (a : IPv6Addr) : Bool :=
  a.words.headD 0 / 64 == 1018

/-! ## Network interface domain model (`supervisor.host.network.Interface`)

Only the attributes `generate.py` reads are modelled.  `method` strings are
restricted to the domain `{auto, disabled, manual}` of the data model; the
source's `else` branch is exactly the `manual` case. -/

inductive Method where
  | auto | disabled | manual
deriving DecidableEq

structure IPv4Config where
  method : Method
  address : List IPv4Interface
  gateway : IPv4Addr
  nameservers : List IPv4Addr
deriving DecidableEq

structure IPv6Config where
  method : Method
  address : List IPv6Interface
  gateway : IPv6Addr
  nameservers : List IPv6Addr
deriving DecidableEq

/-- `wifi.auth` domain `{open, wep, wpa-psk}` (`openA` because `open` is a
Lean keyword). -/
inductive WifiAuth where
  | openA | wep | wpaPsk
deriving DecidableEq

structure WifiConfig where
  ssid : String
  auth : WifiAuth
  psk : Option String
deriving DecidableEq

structure VlanConfig where
  id : Nat
  interface : String
deriving DecidableEq

/-- `host.const.InterfaceType`, a string-valued enum; kinds other than the
three known ones pass their value string through. -/
inductive InterfaceType where
  | ethernet | wireless | vlan | other (value : String)
deriving DecidableEq

def InterfaceType.value : InterfaceType → String
  | .ethernet => "ethernet"
  | .wireless => "wireless"
  | .vlan => "vlan"
  | .other v => v

structure Interface where
  name : String
  type : InterfaceType
  ipv4 : IPv4Config
  ipv6 : IPv6Config
  wifi : Option WifiConfig
  vlan : Option VlanConfig
deriving DecidableEq

/-- `interface.vlan.id`.  When `vlan` is absent the Python attribute access
would raise; the data-model invariant `type = vlan → vlan present` makes
that unreachable, and the embedding defaults to `0` there. -/
def Interface.vlanId (interface : Interface) : Nat :=
  match interface.vlan with
  | some v => v.id
  | none => 0

/-- `interface.vlan.interface` (same remark as `vlanId`). -/
def Interface.vlanParent (interface : Interface) : String :=
  match interface.vlan with
  | some v => v.interface
  | none => ""

/-- `interface.wifi.<attr>` accesses (same remark: the invariant
`type = wireless → wifi present` makes the default dead). -/
def Interface.wifiConf (interface : Interface) : WifiConfig :=
  match interface.wifi with
  | some w => w
  | none => ⟨"", .openA, none⟩

/-! ## `get_connection_from_interface` (generate.py lines 23-131)

The optional `uuid` argument defaults to a fresh `uuid4()`; the random draw
is passed in explicitly as `freshUuid` so the function stays a function. -/

/-- Name derivation shared verbatim by both generator functions:
`if not name or not name.startswith("Supervisor"): name = f"Supervisor
{interface.name}"`, then the VLAN suffix.  A `None` or empty caller name
never starts with `"Supervisor"`. -/
def superviseName (interface : Interface) (name : Option String) : String :=
  let name :=
    match name with
    | none => "Supervisor " ++ interface.name
    | some s =>
        if strStartsWith s "Supervisor" then s else "Supervisor " ++ interface.name
  if interface.type = .vlan then
    name ++ "." ++ toString interface.vlanId
  else
    name

/-- `if not uuid: uuid = str(uuid4())` (`None` and `""` are falsy). -/
def resolveUuid (uuid : Option String) (freshUuid : String) : String :=
  match uuid with
  | none => freshUuid
  | some u => if u = "" then freshUuid else u

/-- The `type` scalar written into the connection section. -/
def connectionType (interface : Interface) : String :=
  if interface.type = .ethernet then "802-3-ethernet"
  else if interface.type = .wireless then "802-11-wireless"
  else interface.type.value

/-- The ipv4 `adressdata` loop: every address becomes an
`{address, prefix}` sub-document, in input order. -/
def ipv4AdressData (addrs : List IPv4Interface) : List AddrDict :=
  addrs.map (fun address =>
    [("address", NMPrim.s address.ip.str), ("prefix", NMPrim.u address.prefixLen)])

/-- The ipv6 `adressdata` loop with its `continue`: addresses whose
`with_prefixlen` text starts with `"fe80::"` are skipped, the rest become
`{address, prefix}` sub-documents in input order. -/
def ipv6AdressData : List IPv6Interface → List AddrDict
  | [] => []
  | address :: rest =>
      if strStartsWith address.withPrefixlen "fe80::" then
        ipv6AdressData rest
      else
        [("address", NMPrim.s address.ip.str), ("prefix", NMPrim.u address.prefixLen)]
          :: ipv6AdressData rest

/-- UTF-8 bytes of one character (Python `str.encode("UTF-8")`). -/
def utf8EncodeChar (c : Char) : List Nat :=
  let n := c.toNat
  if n < 128 then [n]
  else if n < 2048 then [192 + n / 64, 128 + n % 64]
  else if n < 65536 then [224 + n / 4096, 128 + n / 64 % 64, 128 + n % 64]
  else [240 + n / 262144, 128 + n / 4096 % 64, 128 + n / 64 % 64, 128 + n % 64]

/-- UTF-8 bytes of a string. -/
def utf8Encode (s : String) : List Nat :=
  s.data.flatMap utf8EncodeChar

/-- Shallow embedding of `get_connection_from_interface`.

Python mutates the `ipv4` dict from inside the ipv6 manual branch (through
the alias `conn["ipv4"]` shares with the local `ipv4`); the embedding
computes the final contents of that dict before assembling `conn`, using
`dictSet` for the two late assignments so existing keys are overwritten in
place exactly as `dict` assignment does.  The source's signature strings is
kept verbatim: `"aa{sv}"` in the ipv4 branch, `"(a{sv})"` in the ipv6
branch. -/
def get_connection_from_interface (interface : Interface)
    (name uuid : Option String) (freshUuid : String) : Profile :=
  let name := superviseName interface name
  let type := connectionType interface
  let uuid := resolveUuid uuid freshUuid
  let connection : NMDict :=
    [("id", .vs name),
     ("interface-name", .vs interface.name),
     ("type", .vs type),
     ("uuid", .vs uuid),
     ("llmnr", .vi 2),
     ("mdns", .vi 2)]
  let ipv4 : NMDict :=
    if interface.ipv4.method = .auto then
      [("method", .vs "auto")]
    else if interface.ipv4.method = .disabled then
      [("method", .vs "disabled")]
    else
      [("method", .vs "manual"),
       ("dns", .vau (interface.ipv4.nameservers.map (fun a => htonl a.toInt))),
       ("address-data", .vdict "aa\x7bsv\x7d" (ipv4AdressData interface.ipv4.address)),
       ("gateway", .vs interface.ipv4.gateway.str)]
  let ipv6 : NMDict :=
    if interface.ipv6.method = .auto then
      [("method", .vs "auto")]
    else if interface.ipv6.method = .disabled then
      [("method", .vs "disabled")]
    else
      [("method", .vs "manual"),
       ("dns", .vaay (interface.ipv6.nameservers.map IPv6Addr.packed))]
  -- Source defect kept faithfully: the ipv6 manual branch assigns its
  -- adressdata and gateway to the *ipv4* dict.
  let ipv4 : NMDict :=
    if interface.ipv6.method = .auto ∨ interface.ipv6.method = .disabled then
      ipv4
    else
      dictSet
        (dictSet ipv4 "address-data"
          (.vdict "(a\x7bsv\x7d)" (ipv6AdressData interface.ipv6.address)))
        "gateway" (.vs interface.ipv6.gateway.str)
  let conn : Profile := [("connection", connection), ("ipv4", ipv4), ("ipv6", ipv6)]
  if interface.type = .ethernet then
    conn ++ [("802-3-ethernet", [("assigned-mac-address", .vs "preserve")])]
  else if interface.type = .vlan then
    conn ++ [("vlan",
      [("id", .vu interface.vlanId), ("parent", .vs interface.vlanParent)])]
  else if interface.type = .wireless then
    let wireless : NMDict :=
      [("assigned-mac-address", .vs "preserve"),
       ("ssid", .vay (utf8Encode interface.wifiConf.ssid)),
       ("mode", .vs "infrastructure"),
       ("powersave", .vi 1)]
    if interface.wifiConf.auth = .openA then
      conn ++ [("802-11-wireless", wireless)]
    else
      -- `wireless["security"] = ...` happens after `conn` already holds the
      -- dict in Python; the key is new, so it appends.
      let wireless := wireless ++ [("security", .vs "802-11-wireless-security")]
      let wireless_security : NMDict :=
        (if interface.wifiConf.auth = .wep then
          [("auth-alg", .vs "none"), ("key-mgmt", .vs "open")]
        else
          [("auth-alg", .vs "open"), ("key-mgmt", .vs "wpa-psk")]) ++
        (match interface.wifiConf.psk with
         | some psk => if psk = "" then [] else [("psk", .vs psk)]
         | none => [])
      conn ++ [("802-11-wireless", wireless),
               ("802-11-wireless-security", wireless_security)]
  else
    conn

/-! ## `interface_update_payload` (generate.py lines 133-168)

The jinja template file is an external asset (spec section 6), not part of
src/, so the rendered text is modelled by the exact argument triple passed to
`template.render` — which fully determines it.  The function returns that
payload together with the caller's interface object as it is after the call,
because the SSID fix assigns `interface.wifi.ssid` in place. -/

/-- Two-digit lowercase hex of one byte (one group of `bytes.hex(",")`). -/
def byteHex2 (b : Nat) : String :=
  String.mk [Nat.digitChar (b / 16 % 16), Nat.digitChar (b % 16)]

/-- `", ".join(f"0x{x}" for x in ssid.encode().hex(",").split(","))`:
`bytes.hex(",")` yields one two-digit lowercase hex group per UTF-8 byte,
comma separated; splitting on `","` recovers those groups. -/
def ssidHexFix (ssid : String) : String :=
  String.intercalate ", " ((utf8Encode ssid).map (fun b => "0x" ++ byteHex2 b))

/-- The arguments handed to `template.render(interface=..., name=...,
uuid=...)`. -/
structure RenderedPayload where
  interface : Interface
  name : String
  uuid : String
deriving DecidableEq

/-- Shallow embedding of `interface_update_payload`.  First component: the
rendered payload; second component: the caller's interface after the call
(the `# Fix SSID` block mutates `interface.wifi.ssid` on the caller's
object whenever a wifi block is present). -/
def interface_update_payload (interface : Interface)
    (name uuid : Option String) (freshUuid : String) :
    RenderedPayload × Interface :=
  let uuid := resolveUuid uuid freshUuid
  let name := superviseName interface name
  let interface :=
    match interface.wifi with
    | some w => { interface with wifi := some { w with ssid := ssidHexFix w.ssid } }
    | none => interface
  (⟨interface, name, uuid⟩, interface)

/-! ## `HomeAssistant` coordinators (module.py)

The awaited collaborators are modelled by an environment record giving each
call's outcome, and the coordinator bodies are translated statement by
statement into an event trace plus a propagated-exception result. -/

/-- The command-channel payload tags this code uses. -/
inductive WSCommand where
  | backupStart | backupEnd | getConfig | usbScan
deriving DecidableEq

/-- Outcome of one `websocket.async_send_command` call on the channel: either
an acknowledgement or a raised `HomeAssistantWSError`. -/
inductive WSSend where
  | ok | wsError
deriving DecidableEq

/-- The error `_write_tarfile` can raise on the executor. -/
inductive ArchiveError where
  | tarError | osError
deriving DecidableEq

/-- Observable steps of one `backup` call. -/
inductive BackupEvent where
  | sendCommand (cmd : WSCommand)
  | writeTarfile
  | logWarning
deriving DecidableEq

/-- Outcomes of the collaborators during one `backup` call. -/
structure BackupEnv where
  startSend : WSSend
  writeTar : Option ArchiveError
  endSend : WSSend
deriving DecidableEq

/-- Shallow embedding of `HomeAssistant.backup` (module.py lines 304-341).

* `try: await ...BACKUP_START except HomeAssistantWSError: log-warning` —
  the send is attempted, a channel error is caught and logged.
* `try: await sys_run_in_executor(_write_tarfile) finally: ...` — the
  population step runs; whatever it does, the `finally` block then attempts
  `BACKUP_END`, catching and logging a channel error.
* After the `finally` block, a population error propagates to the caller
  (the second component; `none` = normal return). -/
def backup (env : BackupEnv) : List BackupEvent × Option ArchiveError :=
  let trace := [BackupEvent.sendCommand .backupStart]
  let trace := trace ++ (match env.startSend with
    | .ok => [] | .wsError => [BackupEvent.logWarning])
  let trace := trace ++ [BackupEvent.writeTarfile]
  let trace := trace ++ [BackupEvent.sendCommand .backupEnd]
  let trace := trace ++ (match env.endSend with
    | .ok => [] | .wsError => [BackupEvent.logWarning])
  (trace, env.writeTar)

/-! ### Restore -/

/-- One archive member, identified by its path. -/
structure TarMember where
  name : String
deriving DecidableEq

/-- An archive handed to `restore`: either unreadable (malformed/corrupted,
the tar library raises `tarfile.TarError`) or a member list. -/
inductive Archive where
  | corrupted
  | members (ms : List TarMember)
deriving DecidableEq

/-- Resolve `.`/`..` path steps against a stack of directory components;
`none` when a `..` would climb above the extraction root. -/
def resolveSteps (steps : List String) : Option (List String) :=
  let stack := steps.foldl
    (fun acc step =>
      match acc with
      | none => none
      | some stack =>
          if step = "" ∨ step = "." then some stack
          else if step = ".." then
            match stack with
            | [] => none
            | _ :: rest => some rest
          else some (step :: stack))
    (some [])
  stack.map List.reverse

/-- A member path is safe when it is relative and resolves inside the
destination directory. -/
def memberSafe (m : TarMember) : Bool :=
  !(strStartsWith m.name "/") && (resolveSteps (splitSlash m.name)).isSome

/-- Filesystem state under the destination directory: the paths present. -/
abbrev FS := List String

/-- Failures of the extract step, all subclasses of the
`(tarfile.TarError, OSError)` pair the caller catches. -/
inductive RestoreError where
  | invalidArchiveMember | tarError | osError
deriving DecidableEq

/-- Modelled from the spec: the validating extract of the `SecureTarFile`
archive reader (`supervisor.utils.tar`, imported by module.py but not among
the src/ files).  Spec sections 4.5 and 6: every member is validated before
any write — no absolute paths, no traversal outside the destination — the
whole operation is rejected on the first invalid member, a malformed archive
fails the operation, and extraction is atomic, so on any failure no partial
write is visible. -/
def secureExtractAll (archive : Archive) (fs : FS) : FS × Option RestoreError :=
  match archive with
  | .corrupted => (fs, some .tarError)
  | .members ms =>
      if ms.all memberSafe then
        (fs ++ ms.map TarMember.name, none)
      else
        (fs, some .invalidArchiveMember)

/-- What one `restore` call reports: a normal return, or the caught and
logged extraction failure (`except (tarfile.TarError, OSError) ...
_LOGGER.warning`).  There is no raising outcome — every extract failure is a
member of the caught pair. -/
inductive RestoreOutcome where
  | success
  | loggedFailure (e : RestoreError)
deriving DecidableEq

/-- Shallow embedding of `HomeAssistant.restore` (module.py lines 343-358):
run the extract on the executor, catch `(tarfile.TarError, OSError)` and log
a warning instead of re-raising. -/
def restore (archive : Archive) (fs : FS) : FS × RestoreOutcome :=
  match secureExtractAll archive fs with
  | (fs2, none) => (fs2, .success)
  | (fs2, some e) => (fs2, .loggedFailure e)

/-! ### Hardware events -/

/-- Installed versions, abstracted to ordered numeric triples as
`AwesomeVersion` orders release versions. -/
abbrev HAVersion := Nat × Nat × Nat

/-- `a < b` lexicographically. -/
def versionLt (a b : HAVersion) : Bool :=
  a.1 < b.1 || (a.1 == b.1 &&
    (a.2.1 < b.2.1 || (a.2.1 == b.2.1 && a.2.2 < b.2.2)))

/-- The fixed minimum `"2021.9.0"`. -/
def minUsbScanVersion : HAVersion := (2021, 9, 0)

/-- `self.version` is falsy (not installed) or below the minimum. -/
def versionBlocksScan : Option HAVersion → Bool
  | none => true
  | some v => versionLt v minUsbScanVersion

/-- Observable channel traffic of one `_hardware_events` call. -/
inductive HwEvent where
  | sendCommand (cmd : WSCommand)
  | sendMessage (cmd : WSCommand)
deriving DecidableEq

/-- Collaborator outcomes for one `_hardware_events` call:
`deviceMatchesUART` is `is_match_cgroup(PolicyGroup.UART, device)`,
`version` is `self.version`, and `getConfigResponse` is the `get_config`
reply abstracted to its `components` list (`none` for a falsy reply;
a reply without a components key is `some []`). -/
structure HwEnv where
  deviceMatchesUART : Bool
  version : Option HAVersion
  getConfigResponse : Option (List String)
deriving DecidableEq

/-- Shallow embedding of `HomeAssistant._hardware_events`
(module.py lines 287-302). -/
def hardware_events (env : HwEnv) : List HwEvent :=
  if !env.deviceMatchesUART || versionBlocksScan env.version then
    []
  else
    let trace := [HwEvent.sendCommand .getConfig]
    match env.getConfigResponse with
    | none => trace
    | some components =>
        if "usb" ∈ components then
          trace ++ [HwEvent.sendMessage .usbScan]
        else
          trace

/-! ## Fixtures -/

/-- An ipv4 block with `method = auto`. -/
def autoV4 : IPv4Config := ⟨.auto, [], ⟨[0, 0, 0, 0]⟩, []⟩

/-- An ipv6 block with `method = auto`. -/
def autoV6 : IPv6Config := ⟨.auto, [], ⟨[0, 0, 0, 0, 0, 0, 0, 0]⟩, []⟩

/-- A manual ipv6 block: address `2001:db8::1/64`, gateway `2001:db8::fe`,
one nameserver `2001:4860:4860::8888`. -/
def manualV6 : IPv6Config :=
  ⟨.manual,
   [⟨⟨[0x2001, 0xdb8, 0, 0, 0, 0, 0, 1]⟩, 64⟩],
   ⟨[0x2001, 0xdb8, 0, 0, 0, 0, 0, 0xfe]⟩,
   [⟨[0x2001, 0x4860, 0x4860, 0, 0, 0, 0, 0x8888]⟩]⟩

/-- Ethernet interface with an ipv6-manual block. -/
def ifaceC1 : Interface := ⟨"eth0", .ethernet, autoV4, manualV6, none, none⟩

/-- The link-local address `fe80:1::1/64`: inside `fe80::/10`, but its
canonical text does not begin with `"fe80::"`. -/
def llOddAddr : IPv6Interface := ⟨⟨[0xfe80, 1, 0, 0, 0, 0, 0, 1]⟩, 64⟩

/-- The common link-local address `fe80::1/64`. -/
def llCommonAddr : IPv6Interface := ⟨⟨[0xfe80, 0, 0, 0, 0, 0, 0, 1]⟩, 64⟩

/-- A global address `2001:db8::7/64`. -/
def globalAddr : IPv6Interface := ⟨⟨[0x2001, 0xdb8, 0, 0, 0, 0, 0, 7]⟩, 64⟩

/-- Interface whose manual ipv6 block lists an odd link-local address, a
common link-local address and a global one. -/
def ifaceC5 : Interface :=
  ⟨"eth0", .ethernet, autoV4,
   ⟨.manual, [llOddAddr, llCommonAddr, globalAddr],
    ⟨[0xfe80, 0, 0, 0, 0, 0, 0, 0xfe]⟩, []⟩,
   none, none⟩

/-! ## Helper lemmas -/

/-- The ipv6 `adressdata` loop is a filter on the `"fe80::"` text test
followed by the `{address, prefix}` map, preserving order. -/
theorem ipv6AdressData_eq_filter_map (addrs : List IPv6Interface) :
    ipv6AdressData addrs =
      (addrs.filter (fun a => !(strStartsWith a.withPrefixlen "fe80::"))).map
        (fun address =>
          [("address", NMPrim.s address.ip.str),
           ("prefix", NMPrim.u address.prefixLen)]) := by
  induction addrs with
  | nil => rfl
  | cons a rest ih =>
      by_cases h : strStartsWith a.withPrefixlen "fe80::" = true
      · simp [ipv6AdressData, List.filter_cons, h, ih]
      · simp only [Bool.not_eq_true] at h
        simp [ipv6AdressData, List.filter_cons, h, ih]

/-! ## Claims -/

/-- C1: the claim says a profile built from an ipv6-manual interface holds
method, nameservers, address-data and gateway inside its **ipv6** section.
On the code, evaluated at the concrete interface `ifaceC1` (ipv6 manual,
address `2001:db8::1/64`, gateway `2001:db8::fe`): the ipv6 section gets
only the method scalar and the nameserver array, while the address-data
array (with the stray signature `"(a{sv})"`) and the gateway string are
written into the **ipv4** section — the defect already flagged in spec
section 9. -/
theorem c1_ipv6_manual_fields_land_in_ipv4_section :
    (let p := get_connection_from_interface ifaceC1 none none "fixed-uuid"
     ((p.lookup "ipv6").bind (List.lookup "method") = some (.vs "manual")) ∧
     (((p.lookup "ipv6").bind (List.lookup "dns")).isSome = true) ∧
     ((p.lookup "ipv6").bind (List.lookup "address-data") = none) ∧
     ((p.lookup "ipv6").bind (List.lookup "gateway") = none) ∧
     ((p.lookup "ipv4").bind (List.lookup "address-data") =
        some (.vdict "(a\x7bsv\x7d)"
          [[("address", .s "2001:db8::1"), ("prefix", .u 64)]])) ∧
     ((p.lookup "ipv4").bind (List.lookup "gateway") =
        some (.vs "2001:db8::fe"))) := by
  decide

/-- C10: for every interface and every choice of the optional name and uuid
arguments, the connection section of the built profile carries the fixed
32-bit signed fields `llmnr = 2` and `mdns = 2` alongside `id`,
`interface-name`, `type` and `uuid`, whatever the interface type. -/
theorem c10_connection_always_has_llmnr_mdns (interface : Interface)
    (name uuid : Option String) (fresh : String) :
    (let c := (get_connection_from_interface interface name uuid fresh).lookup
        "connection"
     (c.bind (List.lookup "llmnr") = some (.vi 2)) ∧
     (c.bind (List.lookup "mdns") = some (.vi 2)) ∧
     ((c.bind (List.lookup "id")).isSome = true) ∧
     ((c.bind (List.lookup "interface-name")).isSome = true) ∧
     ((c.bind (List.lookup "type")).isSome = true) ∧
     ((c.bind (List.lookup "uuid")).isSome = true)) := by
  obtain ⟨nm, ty, v4, v6, wf, vl⟩ := interface
  cases ty <;> rcases wf with _ | ⟨ssid, auth, psk⟩ <;> try cases auth
  all_goals exact ⟨rfl, rfl, rfl, rfl, rfl, rfl⟩

/-- Python truthiness of `interface.wifi.psk`: a configured pre-shared key
is a present, non-empty string. -/
def pskTruthy : Option String → Bool
  | some s => !(s == "")
  | none => false

/-- C8: for a wireless interface, `auth = open` yields no
`802-11-wireless-security` section; `wep` yields
auth-alg `"none"` / key-mgmt `"open"`; `wpa-psk` yields auth-alg `"open"` /
key-mgmt `"wpa-psk"`; and in the security sub-document a `psk` field is
present exactly when a pre-shared key is configured (non-empty). -/
theorem c8_wireless_security_table (interface : Interface)
    (name uuid : Option String) (fresh : String) (w : WifiConfig)
    (hty : interface.type = .wireless) (hw : interface.wifi = some w) :
    (let sec := (get_connection_from_interface interface name uuid fresh).lookup
        "802-11-wireless-security"
     (w.auth = .openA → sec = none) ∧
     (w.auth = .wep →
        (sec.bind (List.lookup "auth-alg") = some (.vs "none")) ∧
        (sec.bind (List.lookup "key-mgmt") = some (.vs "open"))) ∧
     (w.auth = .wpaPsk →
        (sec.bind (List.lookup "auth-alg") = some (.vs "open")) ∧
        (sec.bind (List.lookup "key-mgmt") = some (.vs "wpa-psk"))) ∧
     (¬ w.auth = .openA →
        (sec.bind (List.lookup "psk")).isSome = pskTruthy w.psk)) := by
  obtain ⟨nm, ty, v4, v6, wf, vl⟩ := interface
  obtain rfl : ty = .wireless := hty
  obtain rfl : wf = some w := hw
  obtain ⟨ssid, auth, psk⟩ := w
  cases auth with
  | openA =>
      exact ⟨fun _ => rfl, fun h => by simp at h, fun h => by simp at h,
        fun h => absurd rfl h⟩
  | wep =>
      refine ⟨fun h => by simp at h, fun _ => ⟨rfl, rfl⟩,
        fun h => by simp at h, fun _ => ?_⟩
      rcases psk with _ | s
      · rfl
      · by_cases hs : s = ""
        · subst hs; rfl
        · have h1 : ((List.lookup "802-11-wireless-security"
              (get_connection_from_interface
                ⟨nm, .wireless, v4, v6, some ⟨ssid, .wep, some s⟩, vl⟩
                name uuid fresh)).bind (List.lookup "psk")) =
              List.lookup "psk"
                ([("auth-alg", NMValue.vs "none"), ("key-mgmt", NMValue.vs "open")]
                  ++ (if s = "" then [] else [("psk", NMValue.vs s)])) := rfl
          have h2 : (List.lookup "psk"
              ([("auth-alg", NMValue.vs "none"), ("key-mgmt", NMValue.vs "open")]
                ++ [("psk", NMValue.vs s)])).isSome = true := rfl
          rw [h1, if_neg hs, h2]
          simp [pskTruthy, hs]
  | wpaPsk =>
      refine ⟨fun h => by simp at h, fun h => by simp at h,
        fun _ => ⟨rfl, rfl⟩, fun _ => ?_⟩
      rcases psk with _ | s
      · rfl
      · by_cases hs : s = ""
        · subst hs; rfl
        · have h1 : ((List.lookup "802-11-wireless-security"
              (get_connection_from_interface
                ⟨nm, .wireless, v4, v6, some ⟨ssid, .wpaPsk, some s⟩, vl⟩
                name uuid fresh)).bind (List.lookup "psk")) =
              List.lookup "psk"
                ([("auth-alg", NMValue.vs "open"), ("key-mgmt", NMValue.vs "wpa-psk")]
                  ++ (if s = "" then [] else [("psk", NMValue.vs s)])) := rfl
          have h2 : (List.lookup "psk"
              ([("auth-alg", NMValue.vs "open"), ("key-mgmt", NMValue.vs "wpa-psk")]
                ++ [("psk", NMValue.vs s)])).isSome = true := rfl
          rw [h1, if_neg hs, h2]
          simp [pskTruthy, hs]

/-- Wireless fixture: wep authentication with a configured key. -/
def ifaceC8 : Interface :=
  ⟨"wlan0", .wireless, autoV4, autoV6, some ⟨"myssid", .wep, some "passw"⟩, none⟩

/-- Witness for C8 at `ifaceC8` (wep, psk configured). -/
theorem c8_wireless_security_table_witness :
    (((get_connection_from_interface ifaceC8 none none "u").lookup
        "802-11-wireless-security").bind (List.lookup "auth-alg") =
      some (.vs "none")) ∧
    ((((get_connection_from_interface ifaceC8 none none "u").lookup
        "802-11-wireless-security").bind (List.lookup "psk")).isSome =
      pskTruthy (some "passw")) :=
  ⟨((c8_wireless_security_table ifaceC8 none none "u"
      ⟨"myssid", .wep, some "passw"⟩ rfl rfl).2.1 rfl).1,
   (c8_wireless_security_table ifaceC8 none none "u"
      ⟨"myssid", .wep, some "passw"⟩ rfl rfl).2.2.2 (fun h => nomatch h)⟩

/-- C5, counterexample to the claim as stated: `fe80:1::1` lies in
`fe80::/10`, yet the profile built from `ifaceC5` keeps it in the
address-data array (while `fe80::1` is excluded) — the code's filter is the
textual test `with_prefixlen.startswith("fe80::")`, not a `fe80::/10` range
test. -/
theorem c5_counterexample_fe80_slash10_not_excluded :
    (inFe80Slash10 llOddAddr.ip = true) ∧
    (((get_connection_from_interface ifaceC5 none none "u").lookup "ipv4").bind
        (List.lookup "address-data") =
      some (.vdict "(a\x7bsv\x7d)"
        [[("address", .s "fe80:1::1"), ("prefix", .u 64)],
         [("address", .s "2001:db8::7"), ("prefix", .u 64)]])) := by
  decide

/-- C5 (amended): for every ipv6-manual interface, the address-data array the
builder constructs consists of exactly the addresses whose canonical
`with_prefixlen` text does not start with `"fe80::"`, as `{address, prefix}`
sub-documents in input order (the array is stored in the ipv4 section, per
the C1 defect). -/
theorem c5_amended_link_local_text_filter (interface : Interface)
    (name uuid : Option String) (fresh : String)
    (h : interface.ipv6.method = .manual) :
    ((get_connection_from_interface interface name uuid fresh).lookup "ipv4").bind
        (List.lookup "address-data") =
      some (.vdict "(a\x7bsv\x7d)"
        ((interface.ipv6.address.filter
            (fun a => !(strStartsWith a.withPrefixlen "fe80::"))).map
          (fun address =>
            [("address", NMPrim.s address.ip.str),
             ("prefix", NMPrim.u address.prefixLen)]))) := by
  rw [← ipv6AdressData_eq_filter_map]
  obtain ⟨nm, ty, v4, v6, wf, vl⟩ := interface
  obtain ⟨m6, a6, g6, n6⟩ := v6
  obtain rfl : m6 = .manual := h
  obtain ⟨m4, a4, g4, n4⟩ := v4
  cases ty <;> cases m4 <;> rcases wf with _ | ⟨ssid, auth, psk⟩ <;> try cases auth
  all_goals rfl

/-- Witness for the amended C5 at `ifaceC5`. -/
theorem c5_amended_link_local_text_filter_witness :
    ((get_connection_from_interface ifaceC5 none none "u").lookup "ipv4").bind
        (List.lookup "address-data") =
      some (.vdict "(a\x7bsv\x7d)"
        ((ifaceC5.ipv6.address.filter
            (fun a => !(strStartsWith a.withPrefixlen "fe80::"))).map
          (fun address =>
            [("address", NMPrim.s address.ip.str),
             ("prefix", NMPrim.u address.prefixLen)]))) :=
  c5_amended_link_local_text_filter ifaceC5 none none "u" rfl

/-- Wireless fixture with SSID `"ab"` for the renderer claims. -/
def ifaceC6 : Interface :=
  ⟨"wlan0", .wireless, autoV4, autoV6, some ⟨"ab", .wpaPsk, some "pw"⟩, none⟩

/-- C6: the claim says `interface_update_payload` leaves the caller's
interface unchanged, so a second render of the same object produces the same
output.  On the code, at the concrete wifi interface with SSID `"ab"`: the
call rewrites the caller's `wifi.ssid` in place to `"0x61, 0x62"`, and a
second render of the retained object produces a different payload. -/
theorem c6_render_mutates_callers_interface :
    (let r1 := interface_update_payload ifaceC6 none none "u1"
     let r2 := interface_update_payload r1.2 none none "u1"
     (r1.2 ≠ ifaceC6) ∧
     (r1.2.wifiConf.ssid = "0x61, 0x62") ∧
     (r2.1 ≠ r1.1)) := by
  decide

/-- C3: whenever archive population fails, `backup` still attempts
`BACKUP_END` after the population step, and propagates the population error
to the caller; a failing END send is logged and never replaces that
error. -/
theorem c3_backup_end_attempted_and_error_propagated (env : BackupEnv)
    (e : ArchiveError) (h : env.writeTar = some e) :
    ((backup env).2 = some e) ∧
    (∃ i j : Nat, i < j ∧ (backup env).1[i]? = some BackupEvent.writeTarfile ∧
      (backup env).1[j]? = some (BackupEvent.sendCommand WSCommand.backupEnd)) ∧
    (env.endSend = .wsError → BackupEvent.logWarning ∈ (backup env).1) := by
  obtain ⟨ss, wt, es⟩ := env
  obtain rfl : wt = some e := h
  cases ss <;> cases es
  · exact ⟨rfl, ⟨1, 2, by omega, rfl, rfl⟩, fun hh => nomatch hh⟩
  · exact ⟨rfl, ⟨1, 2, by omega, rfl, rfl⟩, fun _ => by simp [backup]⟩
  · exact ⟨rfl, ⟨2, 3, by omega, rfl, rfl⟩, fun hh => nomatch hh⟩
  · exact ⟨rfl, ⟨2, 3, by omega, rfl, rfl⟩, fun _ => by simp [backup]⟩

/-- Witness for C3: start send succeeds, population raises a tar error, the
END send itself fails on the channel. -/
theorem c3_backup_end_attempted_and_error_propagated_witness :
    ((backup ⟨.ok, some .tarError, .wsError⟩).2 = some .tarError) ∧
    (∃ i j : Nat, i < j ∧
      (backup ⟨.ok, some .tarError, .wsError⟩).1[i]? =
        some BackupEvent.writeTarfile ∧
      (backup ⟨.ok, some .tarError, .wsError⟩).1[j]? =
        some (BackupEvent.sendCommand WSCommand.backupEnd)) ∧
    (WSSend.wsError = .wsError →
      BackupEvent.logWarning ∈ (backup ⟨.ok, some .tarError, .wsError⟩).1) :=
  c3_backup_end_attempted_and_error_propagated ⟨.ok, some .tarError, .wsError⟩
    .tarError rfl

/-- C4: when both control sends fail on the channel but population succeeds,
`backup` returns without error, and its trace is exactly one `BACKUP_START`
attempt (logged as failed), the population step, one `BACKUP_END` attempt
(logged as failed) — START before population, END after. -/
theorem c4_backup_survives_channel_failures (env : BackupEnv)
    (hs : env.startSend = .wsError) (he : env.endSend = .wsError)
    (hw : env.writeTar = none) :
    ((backup env).2 = none) ∧
    ((backup env).1 = [.sendCommand .backupStart, .logWarning, .writeTarfile,
        .sendCommand .backupEnd, .logWarning]) ∧
    ((backup env).1.count (.sendCommand .backupStart) = 1) ∧
    ((backup env).1.count (.sendCommand .backupEnd) = 1) := by
  obtain ⟨ss, wt, es⟩ := env
  obtain rfl : ss = .wsError := hs
  obtain rfl : es = .wsError := he
  obtain rfl : wt = none := hw
  exact ⟨rfl, rfl, by decide, by decide⟩

/-- Witness for C4 at the all-channel-failures environment. -/
theorem c4_backup_survives_channel_failures_witness :
    ((backup ⟨.wsError, none, .wsError⟩).2 = none) ∧
    ((backup ⟨.wsError, none, .wsError⟩).1 =
      [.sendCommand .backupStart, .logWarning, .writeTarfile,
       .sendCommand .backupEnd, .logWarning]) ∧
    ((backup ⟨.wsError, none, .wsError⟩).1.count
      (.sendCommand .backupStart) = 1) ∧
    ((backup ⟨.wsError, none, .wsError⟩).1.count
      (.sendCommand .backupEnd) = 1) :=
  c4_backup_survives_channel_failures ⟨.wsError, none, .wsError⟩ rfl rfl rfl

/-- C2: a restore whose archive contains any unsafe member (absolute path or
path-traversal outside the destination) is rejected as a whole —
`InvalidArchiveMember` reported, caught and logged — and performs no
filesystem write. -/
theorem c2_restore_rejects_unsafe_member (ms : List TarMember) (fs : FS)
    (h : ∃ m ∈ ms, memberSafe m = false) :
    restore (.members ms) fs = (fs, .loggedFailure .invalidArchiveMember) := by
  have hall : ms.all memberSafe = false := by
    rcases h with ⟨m, hm, hfalse⟩
    cases hallc : ms.all memberSafe
    · rfl
    · rw [List.all_eq_true] at hallc
      exact absurd (hallc m hm) (by simp [hfalse])
  simp [restore, secureExtractAll, hall]

/-- Witness for C2: the spec's own scenario, an archive holding
`"../../etc/passwd"`. -/
theorem c2_restore_rejects_unsafe_member_witness :
    (memberSafe ⟨"../../etc/passwd"⟩ = false) ∧
    (restore (.members [⟨"../../etc/passwd"⟩]) ["existing.txt"] =
      (["existing.txt"], .loggedFailure .invalidArchiveMember)) :=
  ⟨by decide,
   c2_restore_rejects_unsafe_member [⟨"../../etc/passwd"⟩] ["existing.txt"]
     ⟨⟨"../../etc/passwd"⟩, by decide, by decide⟩⟩

/-- C7: whenever the extraction step fails — corrupted archive, invalid
member, filesystem error — `restore` reports the caught, logged failure as
its outcome instead of raising, and the destination filesystem is exactly
what it was before the call. -/
theorem c7_restore_contains_extraction_failure (archive : Archive) (fs : FS)
    (e : RestoreError) (h : (secureExtractAll archive fs).2 = some e) :
    restore archive fs = (fs, .loggedFailure e) := by
  have hfs : (secureExtractAll archive fs).1 = fs := by
    cases archive with
    | corrupted => rfl
    | members ms =>
        cases hall : ms.all memberSafe
        · simp [secureExtractAll, hall]
        · exfalso
          have hnone : (secureExtractAll (.members ms) fs).2 = none := by
            simp [secureExtractAll, hall]
          rw [hnone] at h
          cases h
  have hp : secureExtractAll archive fs = (fs, some e) :=
    Prod.ext_iff.mpr ⟨hfs, h⟩
  simp [restore, hp]

/-- Witness for C7: a corrupted archive read over a non-empty destination. -/
theorem c7_restore_contains_extraction_failure_witness :
    restore .corrupted ["configuration.yaml"] =
      (["configuration.yaml"], .loggedFailure .tarError) :=
  c7_restore_contains_extraction_failure .corrupted ["configuration.yaml"]
    .tarError rfl

/-- C9: when the device misses the hardware policy group, or the installed
version is unknown, or it is below 2021.9.0, `_hardware_events` issues no
`get_config` query and sends nothing at all; and the `usb/scan` rescan
message is sent exactly when all three guards pass — policy match, version
at least the minimum, and a `get_config` reply whose components include
`"usb"`. -/
theorem c9_guards_gate_rescan (env : HwEnv) :
    ((env.deviceMatchesUART = false ∨ env.version = none ∨
        (∃ v, env.version = some v ∧ versionLt v minUsbScanVersion = true)) →
      hardware_events env = []) ∧
    (HwEvent.sendMessage WSCommand.usbScan ∈ hardware_events env ↔
      (env.deviceMatchesUART = true ∧
       (∃ v, env.version = some v ∧ versionLt v minUsbScanVersion = false) ∧
       (∃ cs, env.getConfigResponse = some cs ∧ "usb" ∈ cs))) := by
  obtain ⟨dm, ver, cfg⟩ := env
  cases dm
  · exact ⟨fun _ => rfl, by simp [hardware_events]⟩
  · cases ver with
    | none =>
        refine ⟨fun _ => rfl, ?_⟩
        simp [hardware_events, versionBlocksScan]
    | some v =>
        cases hlt : versionLt v minUsbScanVersion with
        | true =>
            constructor
            · intro _
              simp [hardware_events, versionBlocksScan, hlt]
            · simp [hardware_events, versionBlocksScan, hlt]
        | false =>
            constructor
            · intro hbad
              rcases hbad with hbad | hbad | ⟨v2, hv2, hlt2⟩
              · cases hbad
              · cases hv2 : hbad
              · rw [Option.some_inj.mp hv2] at hlt
                rw [hlt] at hlt2
                cases hlt2
            · cases cfg with
              | none => simp [hardware_events, versionBlocksScan, hlt]
              | some cs =>
                  by_cases hu : "usb" ∈ cs
                  · simp [hardware_events, versionBlocksScan, hlt, hu]
                  · simp [hardware_events, versionBlocksScan, hlt, hu]

/-- Witness for C9: one blocked run (version below minimum) and one full run
(all guards pass, components contain usb). -/
theorem c9_guards_gate_rescan_witness :
    (hardware_events ⟨true, some (2021, 8, 5), some ["usb"]⟩ = []) ∧
    (HwEvent.sendMessage WSCommand.usbScan ∈
      hardware_events ⟨true, some (2021, 9, 0), some ["usb", "zha"]⟩) :=
  ⟨(c9_guards_gate_rescan ⟨true, some (2021, 8, 5), some ["usb"]⟩).1
      (Or.inr (Or.inr ⟨(2021, 8, 5), rfl, by decide⟩)),
   (c9_guards_gate_rescan ⟨true, some (2021, 9, 0), some ["usb", "zha"]⟩).2.mpr
      ⟨rfl, ⟨(2021, 9, 0), rfl, by decide⟩, ⟨["usb", "zha"], rfl, by simp⟩⟩⟩

end Supervisor
